import Mathlib

/-!
Shallow embedding of the financial computation core of the
"shouldisellmyhome" application (source: `src/ResultsDisplay.tsx`,
function `calculateFinancials` and its caller `handleAnalyzeClick`,
data shapes from `src/types.ts`).

Numbers are modelled as exact rationals `ℚ`; the only exponentiation in
the source is `Math.pow(1 + monthlyRate, numberOfPayments)` with the
natural exponent 360, so the whole computation is rational arithmetic.
The source sets a React error string and returns `null` on a validation
failure; this is modelled as `Except String CalculationResults`, the
error carrying the exact message the source stores.  The soft warning
for negative `proceedsFromSale` (`setError("Warning: ...")`) does not
stop the computation in the source and does not affect the returned
value, so it does not appear in the returned `Except`.
-/

namespace ShouldISell

/-- Shape `NewHomeDetails` from `src/types.ts`. -/
structure NewHomeDetails where
  estimatedTaxes : ℚ
  estimatedInsurance : ℚ
  marketTrends : String
deriving DecidableEq

/-- Shape `FinancialData` from `src/types.ts`. -/
structure FinancialData where
  currentHomeValue : ℚ
  currentMortgageBalance : ℚ
  currentInterestRate : ℚ
  currentMonthlyPayment : ℚ
  currentHomeAddress : String
  newHomePrice : ℚ
  newInterestRate : ℚ
  newHomeAddress : String
  monthlyIncome : ℚ
  autoDebt : ℚ
  studentDebt : ℚ
  creditCardDebt : ℚ
  otherDebt : ℚ
  newHomeDetails : Option NewHomeDetails
deriving DecidableEq

/-- Shape `CalculationResults` from `src/types.ts`. -/
structure CalculationResults where
  proceedsFromSale : ℚ
  newLoanAmount : ℚ
  newMonthlyPayment : ℚ
  currentDTI : ℚ
  newDTI : ℚ
  monthlyPaymentDifference : ℚ
deriving DecidableEq

/-- Source: `const sellingCosts = data.currentHomeValue * 0.08;` -/
def sellingCosts (d : FinancialData) : ℚ :=
  d.currentHomeValue * 0.08

/-- Source: `const proceedsFromSale = data.currentHomeValue - data.currentMortgageBalance - sellingCosts;` -/
def proceedsFromSale (d : FinancialData) : ℚ :=
  d.currentHomeValue - d.currentMortgageBalance - sellingCosts d

/-- Source: `const downPayment = Math.max(0, proceedsFromSale);` -/
def downPayment (d : FinancialData) : ℚ :=
  max 0 (proceedsFromSale d)

/-- Source: `const newLoanAmount = data.newHomePrice - downPayment;` -/
def newLoanAmount (d : FinancialData) : ℚ :=
  d.newHomePrice - downPayment d

/-- Source: `const monthlyPropertyTax = data.newHomeDetails ? data.newHomeDetails.estimatedTaxes / 12 : (data.newHomePrice * 0.0125) / 12;` -/
def monthlyPropertyTax (d : FinancialData) : ℚ :=
  match d.newHomeDetails with
  | some det => det.estimatedTaxes / 12
  | none => (d.newHomePrice * 0.0125) / 12

/-- Source: `const monthlyInsurance = data.newHomeDetails ? data.newHomeDetails.estimatedInsurance / 12 : (data.newHomePrice * 0.005) / 12;` -/
def monthlyInsurance (d : FinancialData) : ℚ :=
  match d.newHomeDetails with
  | some det => det.estimatedInsurance / 12
  | none => (d.newHomePrice * 0.005) / 12

/-- Source: `const monthlyRate = data.newInterestRate / 100 / 12;` -/
def monthlyRate (d : FinancialData) : ℚ :=
  d.newInterestRate / 100 / 12

/-- Source: `const numberOfPayments = 30 * 12;` -/
def numberOfPayments : ℕ := 30 * 12

/-- The ternary computing `principalAndInterest`, as a function of the
loan amount, the monthly rate and the number of payments:
`monthlyRate > 0 ? newLoanAmount * (monthlyRate * Math.pow(1 + monthlyRate, numberOfPayments)) / (Math.pow(1 + monthlyRate, numberOfPayments) - 1) : newLoanAmount / numberOfPayments`. -/
def principalAndInterestOf (loan r : ℚ) (n : ℕ) : ℚ :=
  if 0 < r then
    loan * (r * (1 + r) ^ n) / ((1 + r) ^ n - 1)
  else
    loan / (n : ℚ)

/-- Source: `const principalAndInterest = ...` with the source's actual arguments. -/
def principalAndInterest (d : FinancialData) : ℚ :=
  principalAndInterestOf (newLoanAmount d) (monthlyRate d) numberOfPayments

/-- Source: `const newMonthlyPayment = principalAndInterest + monthlyPropertyTax + monthlyInsurance;` -/
def newMonthlyPayment (d : FinancialData) : ℚ :=
  principalAndInterest d + monthlyPropertyTax d + monthlyInsurance d

/-- Source: `const totalMonthlyDebt = data.autoDebt + data.studentDebt + data.creditCardDebt + data.otherDebt;` -/
def totalMonthlyDebt (d : FinancialData) : ℚ :=
  d.autoDebt + d.studentDebt + d.creditCardDebt + d.otherDebt

/-- Source: `const currentDTI = (currentTotalMonthlyPayments / data.monthlyIncome) * 100;`
where `currentTotalMonthlyPayments = data.currentMonthlyPayment + totalMonthlyDebt`. -/
def currentDTI (d : FinancialData) : ℚ :=
  (d.currentMonthlyPayment + totalMonthlyDebt d) / d.monthlyIncome * 100

/-- Source: `const newDTI = (newTotalMonthlyPayments / data.monthlyIncome) * 100;`
where `newTotalMonthlyPayments = newMonthlyPayment + totalMonthlyDebt`. -/
def newDTI (d : FinancialData) : ℚ :=
  (newMonthlyPayment d + totalMonthlyDebt d) / d.monthlyIncome * 100

/-- Source: `const monthlyPaymentDifference = newMonthlyPayment - data.currentMonthlyPayment;` -/
def monthlyPaymentDifference (d : FinancialData) : ℚ :=
  newMonthlyPayment d - d.currentMonthlyPayment

/-- Function `calculateFinancials` from `src/ResultsDisplay.tsx` (the App component):
four fail-fast validation guards in source order, each returning `null`
after storing the quoted error message, then the pure computation and
the returned result object. -/
def calculateFinancials (d : FinancialData) : Except String CalculationResults :=
  if d.currentHomeValue ≤ 0 then
    .error "Estimated Home Value must be greater than zero."
  else if d.newHomePrice ≤ 0 then
    .error "New Home Purchase Price must be greater than zero."
  else if d.newInterestRate ≤ 0 then
    .error "Estimated New Interest Rate must be greater than zero."
  else if d.monthlyIncome ≤ 0 then
    .error "Gross Monthly Income must be greater than zero to calculate DTI."
  else
    .ok { proceedsFromSale := proceedsFromSale d
          newLoanAmount := newLoanAmount d
          newMonthlyPayment := newMonthlyPayment d
          currentDTI := currentDTI d
          newDTI := newDTI d
          monthlyPaymentDifference := monthlyPaymentDifference d }

/-- The four guards all pass. -/
def passesValidation (d : FinancialData) : Prop :=
  0 < d.currentHomeValue ∧ 0 < d.newHomePrice ∧
    0 < d.newInterestRate ∧ 0 < d.monthlyIncome

instance (d : FinancialData) : Decidable (passesValidation d) :=
  inferInstanceAs (Decidable (_ ∧ _ ∧ _ ∧ _))

/-- Function `handleAnalyzeClick`, restricted to its effect on the `results`
state slot: `setResults(calculatedResults)` runs only when
`calculateFinancials()` returned a non-null value, so a validation
failure leaves the previously stored results untouched. -/
def handleAnalyzeClick (prior : Option CalculationResults)
    (d : FinancialData) : Option CalculationResults :=
  match calculateFinancials d with
  | .ok r => some r
  | .error _ => prior

/-! Concrete inputs used by witnesses and counterexamples.  `p1` is the
App component's initial state (`useState<FinancialData>({...})`). -/

/-- Initial `FinancialData` of the App component. -/
def p1 : FinancialData :=
  { currentHomeValue := 500000, currentMortgageBalance := 250000,
    currentInterestRate := 3, currentMonthlyPayment := 1800,
    currentHomeAddress := "", newHomePrice := 750000,
    newInterestRate := 6.5, newHomeAddress := "",
    monthlyIncome := 10000, autoDebt := 500, studentDebt := 300,
    creditCardDebt := 200, otherDebt := 0, newHomeDetails := none }

/-- Negative-equity input of end-to-end example 3 of the specification:
home value 100000, mortgage balance 200000. -/
def pNeg : FinancialData :=
  { currentHomeValue := 100000, currentMortgageBalance := 200000,
    currentInterestRate := 3, currentMonthlyPayment := 0,
    currentHomeAddress := "", newHomePrice := 50000,
    newInterestRate := 6.5, newHomeAddress := "",
    monthlyIncome := 1000, autoDebt := 0, studentDebt := 0,
    creditCardDebt := 0, otherDebt := 0, newHomeDetails := none }

/-- Valid input whose current monthly payment is negative (the source
validates neither `currentMonthlyPayment` nor the four debts). -/
def pA : FinancialData :=
  { currentHomeValue := 1, currentMortgageBalance := 0,
    currentInterestRate := 3, currentMonthlyPayment := -100,
    currentHomeAddress := "", newHomePrice := 1,
    newInterestRate := 6.5, newHomeAddress := "",
    monthlyIncome := 1000, autoDebt := 0, studentDebt := 0,
    creditCardDebt := 0, otherDebt := 0, newHomeDetails := none }

/-- Valid input where the sale proceeds far exceed the new home price,
so the new loan amount (and hence the new monthly payment) is negative.
The 1200 percent annual rate makes the monthly rate exactly 1. -/
def pB : FinancialData :=
  { currentHomeValue := 1000000, currentMortgageBalance := 0,
    currentInterestRate := 3, currentMonthlyPayment := 0,
    currentHomeAddress := "", newHomePrice := 100,
    newInterestRate := 1200, newHomeAddress := "",
    monthlyIncome := 1, autoDebt := 0, studentDebt := 0,
    creditCardDebt := 0, otherDebt := 0, newHomeDetails := none }

/-- The initial App data with the annual rate replaced by 1200 percent,
making the monthly rate exactly 1 (keeps concrete evaluation exact and
small: the power is 2 ^ 360). -/
def pW : FinancialData :=
  { p1 with newInterestRate := 1200 }

/-- Concrete `NewHomeDetails` override: 2400 annual taxes, 1200 annual
insurance. -/
def pDet : NewHomeDetails :=
  { estimatedTaxes := 2400, estimatedInsurance := 1200,
    marketTrends := "stable" }

/-- The initial App data with a `newHomeDetails` override present. -/
def pOverride : FinancialData :=
  { p1 with newHomeDetails := some pDet }

/-- Input failing validation rule 1 (home value is 0). -/
def pBad1 : FinancialData :=
  { p1 with currentHomeValue := 0 }

/-- Input failing validation rule 2 (new home price is 0). -/
def pBad2 : FinancialData :=
  { p1 with newHomePrice := 0 }

/-- Input failing validation rule 3 (new interest rate is 0). -/
def pBad3 : FinancialData :=
  { p1 with newInterestRate := 0 }

/-- Input failing validation rule 4 (monthly income is 0). -/
def pBad4 : FinancialData :=
  { p1 with monthlyIncome := 0 }

/-- An arbitrary previously stored result, used to observe that a failed
invocation leaves the stored slot untouched. -/
def r0 : CalculationResults :=
  { proceedsFromSale := 1, newLoanAmount := 2, newMonthlyPayment := 3,
    currentDTI := 4, newDTI := 5, monthlyPaymentDifference := 6 }

theorem calculateFinancials_ok (d : FinancialData) (h : passesValidation d) :
    calculateFinancials d =
      .ok { proceedsFromSale := proceedsFromSale d
            newLoanAmount := newLoanAmount d
            newMonthlyPayment := newMonthlyPayment d
            currentDTI := currentDTI d
            newDTI := newDTI d
            monthlyPaymentDifference := monthlyPaymentDifference d } := by
  obtain ⟨h1, h2, h3, h4⟩ := h
  simp [calculateFinancials, not_le.mpr h1, not_le.mpr h2, not_le.mpr h3,
    not_le.mpr h4]

theorem calculateFinancials_isError (d : FinancialData)
    (h : d.currentHomeValue ≤ 0 ∨ d.newHomePrice ≤ 0 ∨
      d.newInterestRate ≤ 0 ∨ d.monthlyIncome ≤ 0) :
    ∃ msg, calculateFinancials d = .error msg := by
  unfold calculateFinancials
  split_ifs with h1 h2 h3 h4
  · exact ⟨_, rfl⟩
  · exact ⟨_, rfl⟩
  · exact ⟨_, rfl⟩
  · exact ⟨_, rfl⟩
  · exfalso
    rcases h with h | h | h | h
    exacts [h1 h, h2 h, h3 h, h4 h]

/-- C1: for every profile that passes validation, `totalMonthlyDebt` is
the sum of the four recurring debts, `currentDTI` is
`(currentMonthlyPayment + totalMonthlyDebt) / monthlyIncome * 100` and
`newDTI` is `(newMonthlyPayment + totalMonthlyDebt) / monthlyIncome * 100`. -/
theorem claim1_dti_formulas (d : FinancialData) (h : passesValidation d) :
    ∃ r, calculateFinancials d = .ok r ∧
      totalMonthlyDebt d =
        d.autoDebt + d.studentDebt + d.creditCardDebt + d.otherDebt ∧
      r.currentDTI =
        (d.currentMonthlyPayment + totalMonthlyDebt d) / d.monthlyIncome * 100 ∧
      r.newDTI =
        (r.newMonthlyPayment + totalMonthlyDebt d) / d.monthlyIncome * 100 :=
  ⟨_, calculateFinancials_ok d h, rfl, rfl, rfl⟩

/-- Witness for C1 at the App's initial data. -/
theorem claim1_dti_formulas_witness :
    ∃ r, calculateFinancials p1 = .ok r ∧
      totalMonthlyDebt p1 =
        p1.autoDebt + p1.studentDebt + p1.creditCardDebt + p1.otherDebt ∧
      r.currentDTI =
        (p1.currentMonthlyPayment + totalMonthlyDebt p1) / p1.monthlyIncome * 100 ∧
      r.newDTI =
        (r.newMonthlyPayment + totalMonthlyDebt p1) / p1.monthlyIncome * 100 :=
  claim1_dti_formulas p1 (by norm_num [passesValidation, p1])

/-- C2: the four validation rules run in the fixed source order, the
first failing rule determines the error message regardless of the later
rules, and whenever any of the four conditions holds the computation
returns an error and never an `ok` result. -/
theorem claim2_validation_order (d : FinancialData) :
    (d.currentHomeValue ≤ 0 →
      calculateFinancials d =
        .error "Estimated Home Value must be greater than zero.") ∧
    (0 < d.currentHomeValue → d.newHomePrice ≤ 0 →
      calculateFinancials d =
        .error "New Home Purchase Price must be greater than zero.") ∧
    (0 < d.currentHomeValue → 0 < d.newHomePrice → d.newInterestRate ≤ 0 →
      calculateFinancials d =
        .error "Estimated New Interest Rate must be greater than zero.") ∧
    (0 < d.currentHomeValue → 0 < d.newHomePrice → 0 < d.newInterestRate →
      d.monthlyIncome ≤ 0 →
      calculateFinancials d =
        .error "Gross Monthly Income must be greater than zero to calculate DTI.") ∧
    ((d.currentHomeValue ≤ 0 ∨ d.newHomePrice ≤ 0 ∨
        d.newInterestRate ≤ 0 ∨ d.monthlyIncome ≤ 0) →
      ∀ r, calculateFinancials d ≠ .ok r) := by
  refine ⟨?_, ?_, ?_, ?_, ?_⟩
  · intro h1
    simp [calculateFinancials, h1]
  · intro h1 h2
    simp [calculateFinancials, not_le.mpr h1, h2]
  · intro h1 h2 h3
    simp [calculateFinancials, not_le.mpr h1, not_le.mpr h2, h3]
  · intro h1 h2 h3 h4
    simp [calculateFinancials, not_le.mpr h1, not_le.mpr h2, not_le.mpr h3, h4]
  · intro h r hr
    obtain ⟨msg, hmsg⟩ := calculateFinancials_isError d h
    rw [hmsg] at hr
    exact Except.noConfusion hr

/-- Witness for C2: each of the four single-rule failures produces its
own message, and a failing invocation produces no `ok` result. -/
theorem claim2_validation_order_witness :
    calculateFinancials pBad1 =
      .error "Estimated Home Value must be greater than zero." ∧
    calculateFinancials pBad2 =
      .error "New Home Purchase Price must be greater than zero." ∧
    calculateFinancials pBad3 =
      .error "Estimated New Interest Rate must be greater than zero." ∧
    calculateFinancials pBad4 =
      .error "Gross Monthly Income must be greater than zero to calculate DTI." ∧
    calculateFinancials pBad1 ≠ .ok r0 :=
  ⟨(claim2_validation_order pBad1).1 (by norm_num [pBad1, p1]),
   (claim2_validation_order pBad2).2.1 (by norm_num [pBad2, p1])
     (by norm_num [pBad2, p1]),
   (claim2_validation_order pBad3).2.2.1 (by norm_num [pBad3, p1])
     (by norm_num [pBad3, p1]) (by norm_num [pBad3, p1]),
   (claim2_validation_order pBad4).2.2.2.1 (by norm_num [pBad4, p1])
     (by norm_num [pBad4, p1]) (by norm_num [pBad4, p1])
     (by norm_num [pBad4, p1]),
   (claim2_validation_order pBad1).2.2.2.2
     (Or.inl (by norm_num [pBad1, p1])) r0⟩

/-- C3: for every validated profile, `sellingCosts` is 8 percent of the
current home value and the returned `proceedsFromSale` is
`currentHomeValue - currentMortgageBalance - sellingCosts`. -/
theorem claim3_selling_costs (d : FinancialData) (h : passesValidation d) :
    sellingCosts d = d.currentHomeValue * 0.08 ∧
    ∃ r, calculateFinancials d = .ok r ∧
      r.proceedsFromSale =
        d.currentHomeValue - d.currentMortgageBalance - sellingCosts d :=
  ⟨rfl, _, calculateFinancials_ok d h, rfl⟩

/-- Witness for C3 at the specification's example 1: home value 500000,
balance 250000 give selling costs 40000 and proceeds 210000. -/
theorem claim3_selling_costs_witness :
    sellingCosts p1 = 40000 ∧ proceedsFromSale p1 = 210000 ∧
    (sellingCosts p1 = p1.currentHomeValue * 0.08 ∧
      ∃ r, calculateFinancials p1 = .ok r ∧
        r.proceedsFromSale =
          p1.currentHomeValue - p1.currentMortgageBalance - sellingCosts p1) :=
  ⟨by norm_num [sellingCosts, p1],
   by norm_num [proceedsFromSale, sellingCosts, p1],
   claim3_selling_costs p1 (by norm_num [passesValidation, p1])⟩

/-- C4: for every validated profile the returned `newLoanAmount` is
`newHomePrice - max 0 proceedsFromSale`, and when the proceeds are
negative the down payment is 0 and the loan equals the full price. -/
theorem claim4_new_loan_amount (d : FinancialData) (h : passesValidation d) :
    ∃ r, calculateFinancials d = .ok r ∧
      r.newLoanAmount = d.newHomePrice - max 0 r.proceedsFromSale ∧
      (r.proceedsFromSale < 0 →
        downPayment d = 0 ∧ r.newLoanAmount = d.newHomePrice) := by
  refine ⟨_, calculateFinancials_ok d h, rfl, ?_⟩
  intro hneg
  have hdp : downPayment d = 0 := max_eq_left (le_of_lt hneg)
  exact ⟨hdp, by simp [newLoanAmount, hdp]⟩

/-- Witness for C4 at the negative-equity input of example 3. -/
theorem claim4_new_loan_amount_witness :
    ∃ r, calculateFinancials pNeg = .ok r ∧
      r.newLoanAmount = pNeg.newHomePrice - max 0 r.proceedsFromSale ∧
      (r.proceedsFromSale < 0 →
        downPayment pNeg = 0 ∧ r.newLoanAmount = pNeg.newHomePrice) :=
  claim4_new_loan_amount pNeg (by norm_num [passesValidation, pNeg])

/-- C5: negative proceeds are a soft warning, not an error: a validated
profile with `proceedsFromSale < 0` still yields a full result, carrying
the negative proceeds value unmodified. -/
theorem claim5_negative_proceeds_soft (d : FinancialData)
    (h : passesValidation d) (hneg : proceedsFromSale d < 0) :
    ∃ r, calculateFinancials d = .ok r ∧
      r.proceedsFromSale = proceedsFromSale d ∧ r.proceedsFromSale < 0 :=
  ⟨_, calculateFinancials_ok d h, rfl, hneg⟩

/-- Witness for C5 at example 3, whose proceeds are -108000. -/
theorem claim5_negative_proceeds_soft_witness :
    proceedsFromSale pNeg = -108000 ∧
    ∃ r, calculateFinancials pNeg = .ok r ∧
      r.proceedsFromSale = proceedsFromSale pNeg ∧ r.proceedsFromSale < 0 :=
  ⟨by norm_num [proceedsFromSale, sellingCosts, pNeg],
   claim5_negative_proceeds_soft pNeg (by norm_num [passesValidation, pNeg])
     (by norm_num [proceedsFromSale, sellingCosts, pNeg])⟩

/-- C6: for every validated profile, an override makes the monthly tax
and insurance exactly the annual values divided by 12, and without an
override the heuristics `newHomePrice * 0.0125 / 12` and
`newHomePrice * 0.005 / 12` are used; the returned monthly payment is
built from these components. -/
theorem claim6_tax_insurance (d : FinancialData) (h : passesValidation d) :
    (∀ det, d.newHomeDetails = some det →
      monthlyPropertyTax d = det.estimatedTaxes / 12 ∧
      monthlyInsurance d = det.estimatedInsurance / 12) ∧
    (d.newHomeDetails = none →
      monthlyPropertyTax d = d.newHomePrice * 0.0125 / 12 ∧
      monthlyInsurance d = d.newHomePrice * 0.005 / 12) ∧
    ∃ r, calculateFinancials d = .ok r ∧
      r.newMonthlyPayment =
        principalAndInterest d + monthlyPropertyTax d + monthlyInsurance d := by
  refine ⟨?_, ?_, _, calculateFinancials_ok d h, rfl⟩
  · intro det hdet
    simp [monthlyPropertyTax, monthlyInsurance, hdet]
  · intro hnone
    simp [monthlyPropertyTax, monthlyInsurance, hnone]

/-- Witness for C6: with the override (2400, 1200) the components are
200 and 100; without it they follow the heuristics. -/
theorem claim6_tax_insurance_witness :
    monthlyPropertyTax pOverride = pDet.estimatedTaxes / 12 ∧
    monthlyInsurance pOverride = pDet.estimatedInsurance / 12 ∧
    monthlyPropertyTax pOverride = 200 ∧
    monthlyInsurance pOverride = 100 ∧
    monthlyPropertyTax p1 = p1.newHomePrice * 0.0125 / 12 ∧
    monthlyInsurance p1 = p1.newHomePrice * 0.005 / 12 := by
  have hov := (claim6_tax_insurance pOverride
    (by norm_num [passesValidation, pOverride, p1])).1 pDet rfl
  have hfb := (claim6_tax_insurance p1
    (by norm_num [passesValidation, p1])).2.1 rfl
  refine ⟨hov.1, hov.2, ?_, ?_, hfb.1, hfb.2⟩
  · rw [hov.1]
    norm_num [pDet]
  · rw [hov.2]
    norm_num [pDet]

/-- C7: the principal-and-interest component is the standard 360-payment
amortization formula at monthly rate `newInterestRate / 100 / 12`: for
`r > 0` it is `loan * r * (1+r)^360 / ((1+r)^360 - 1)`, and for `r = 0`
(constructed directly, bypassing validation) it is `loan / 360`. -/
theorem claim7_amortization :
    (∀ d : FinancialData,
      monthlyRate d = d.newInterestRate / 100 / 12 ∧
      numberOfPayments = 360 ∧
      principalAndInterest d =
        principalAndInterestOf (newLoanAmount d) (monthlyRate d) 360) ∧
    (∀ loan r : ℚ, 0 < r →
      principalAndInterestOf loan r 360 =
        loan * (r * (1 + r) ^ (360 : ℕ)) / ((1 + r) ^ (360 : ℕ) - 1)) ∧
    (∀ loan : ℚ, principalAndInterestOf loan 0 360 = loan / 360) := by
  refine ⟨fun d => ⟨rfl, rfl, rfl⟩, ?_, ?_⟩
  · intro loan r hr
    simp [principalAndInterestOf, hr]
  · intro loan
    norm_num [principalAndInterestOf]

/-- Witness for C7: both branches instantiated, the positive branch at
monthly rate 1. -/
theorem claim7_amortization_witness :
    monthlyRate p1 = p1.newInterestRate / 100 / 12 ∧
    principalAndInterestOf 540000 1 360 =
      540000 * (1 * (1 + 1) ^ (360 : ℕ)) / ((1 + 1) ^ (360 : ℕ) - 1) ∧
    principalAndInterestOf 540000 0 360 = 540000 / 360 :=
  ⟨(claim7_amortization.1 p1).1,
   claim7_amortization.2.1 540000 1 (by norm_num),
   claim7_amortization.2.2 540000⟩

/-- C8 fails as stated: the source validates neither
`currentMonthlyPayment` nor the four debts, so a validated profile with
a negative current payment yields `currentDTI < 0` (input `pA`); and the
stated side condition `currentMonthlyPayment + totalMonthlyDebt ≥ 0`
does not make `newDTI` nonnegative, because the new monthly payment
itself goes negative when the sale proceeds exceed the new home price
(input `pB`). -/
theorem claim8_dti_nonneg_counterexample :
    (passesValidation pA ∧
      ∃ r, calculateFinancials pA = .ok r ∧ r.currentDTI < 0) ∧
    (passesValidation pB ∧
      0 ≤ pB.currentMonthlyPayment + totalMonthlyDebt pB ∧
      ∃ r, calculateFinancials pB = .ok r ∧ r.newDTI < 0) := by
  refine ⟨⟨by norm_num [passesValidation, pA], _,
      calculateFinancials_ok pA (by norm_num [passesValidation, pA]), ?_⟩,
    by norm_num [passesValidation, pB],
    by norm_num [totalMonthlyDebt, pB], _,
      calculateFinancials_ok pB (by norm_num [passesValidation, pB]), ?_⟩
  · show currentDTI pA < 0
    norm_num [currentDTI, totalMonthlyDebt, pA]
  · show newDTI pB < 0
    norm_num [newDTI, newMonthlyPayment, principalAndInterest,
      principalAndInterestOf, monthlyRate, newLoanAmount, downPayment,
      proceedsFromSale, sellingCosts, monthlyPropertyTax, monthlyInsurance,
      totalMonthlyDebt, numberOfPayments, pB, max_def]

/-- C8 (amended): for every profile passing validation, `currentDTI` is
nonnegative whenever `currentMonthlyPayment + totalMonthlyDebt ≥ 0`, and
`newDTI` is nonnegative whenever
`newMonthlyPayment + totalMonthlyDebt ≥ 0`. -/
theorem claim8_dti_nonneg_amended (d : FinancialData)
    (h : passesValidation d) :
    ∃ r, calculateFinancials d = .ok r ∧
      (0 ≤ d.currentMonthlyPayment + totalMonthlyDebt d → 0 ≤ r.currentDTI) ∧
      (0 ≤ r.newMonthlyPayment + totalMonthlyDebt d → 0 ≤ r.newDTI) := by
  refine ⟨_, calculateFinancials_ok d h, ?_, ?_⟩
  · intro hx
    show 0 ≤ currentDTI d
    exact mul_nonneg (div_nonneg hx (le_of_lt h.2.2.2)) (by norm_num)
  · intro hx
    show 0 ≤ newDTI d
    exact mul_nonneg (div_nonneg hx (le_of_lt h.2.2.2)) (by norm_num)

/-- Witness for the amended C8, with both side conditions discharged at
a concrete validated input. -/
theorem claim8_dti_nonneg_amended_witness :
    ∃ r, calculateFinancials pW = .ok r ∧ 0 ≤ r.currentDTI ∧ 0 ≤ r.newDTI := by
  obtain ⟨r, hr, h1, h2⟩ :=
    claim8_dti_nonneg_amended pW (by norm_num [passesValidation, pW, p1])
  refine ⟨r, hr, h1 (by norm_num [pW, p1, totalMonthlyDebt]), h2 ?_⟩
  have hok := calculateFinancials_ok pW (by norm_num [passesValidation, pW, p1])
  rw [hok] at hr
  injection hr with hr
  rw [← hr]
  show 0 ≤ newMonthlyPayment pW + totalMonthlyDebt pW
  norm_num [newMonthlyPayment, principalAndInterest, principalAndInterestOf,
    monthlyRate, newLoanAmount, downPayment, proceedsFromSale, sellingCosts,
    monthlyPropertyTax, monthlyInsurance, totalMonthlyDebt, numberOfPayments,
    pW, p1, max_def]

/-- C9: a validation failure leaves the previously stored results slot
untouched: `setResults` only runs when `calculateFinancials` returned a
non-null value. -/
theorem claim9_results_preserved (prior : Option CalculationResults)
    (d : FinancialData)
    (h : d.currentHomeValue ≤ 0 ∨ d.newHomePrice ≤ 0 ∨
      d.newInterestRate ≤ 0 ∨ d.monthlyIncome ≤ 0) :
    handleAnalyzeClick prior d = prior := by
  obtain ⟨msg, hmsg⟩ := calculateFinancials_isError d h
  unfold handleAnalyzeClick
  rw [hmsg]

/-- Witness for C9: a stored result survives an invocation on an input
with home value 0. -/
theorem claim9_results_preserved_witness :
    handleAnalyzeClick (some r0) pBad1 = some r0 :=
  claim9_results_preserved (some r0) pBad1 (Or.inl (by norm_num [pBad1, p1]))

/-- C10: for every validated profile, the DTI change is exactly the
payment change scaled by income:
`newDTI - currentDTI = monthlyPaymentDifference / monthlyIncome * 100`. -/
theorem claim10_dti_difference (d : FinancialData) (h : passesValidation d) :
    ∃ r, calculateFinancials d = .ok r ∧
      r.newDTI - r.currentDTI =
        r.monthlyPaymentDifference / d.monthlyIncome * 100 := by
  refine ⟨_, calculateFinancials_ok d h, ?_⟩
  have hi : d.monthlyIncome ≠ 0 := ne_of_gt h.2.2.2
  show newDTI d - currentDTI d = monthlyPaymentDifference d / d.monthlyIncome * 100
  unfold newDTI currentDTI monthlyPaymentDifference
  field_simp
  ring

/-- Witness for C10 at the App's initial data. -/
theorem claim10_dti_difference_witness :
    ∃ r, calculateFinancials p1 = .ok r ∧
      r.newDTI - r.currentDTI =
        r.monthlyPaymentDifference / p1.monthlyIncome * 100 :=
  claim10_dti_difference p1 (by norm_num [passesValidation, p1])

end ShouldISell
